import Mathlib

/-!
Shallow embedding of the activity-relay core of pixel-claude:
the `StateMachine` (stateMachine.ts), the hook classifier and the
HTTP/WebSocket handlers (packages/cli/src/server.ts).

Time is modelled as `Nat` milliseconds; every operation that reads
`Date.now()` in the source takes the current time as an explicit
argument.  Handler invocation is modelled by a log of broadcast
messages carried in the state: each entry is one `broadcast()` call,
during which every registered handler is invoked once.
-/

/-- The closed set of activity modes (types.ts `Mode`). -/
inductive Mode
  | idle
  | typing
  | running
  | thinking
  | celebrate
  | error
  deriving DecidableEq

/-- types.ts `StateMessage`: `{type: 'state', mode, ts}`. -/
structure StateMessage where
  type : String
  mode : Mode
  ts : Nat
  deriving DecidableEq

/-- JavaScript truthiness of a nullable number (`if (ttl)`,
`if (this.modeExpiresAt && ...)`): `null`/`undefined` and `0` are falsy. -/
def numTruthy : Option Nat → Bool
  | none => false
  | some n => decide (n ≠ 0)

/-- stateMachine.ts: `thinkingTimeout` (3s of silence falls back to thinking). -/
def thinkingTimeout : Nat := 3000

/-- stateMachine.ts: `idleTimeout` (25s of silence falls back to idle). -/
def idleTimeout : Nat := 25000

/-- stateMachine.ts: `tickRate` (tick every 500ms). -/
def tickRate : Nat := 500

/-- The mutable fields of stateMachine.ts `StateMachine`, plus a log of
the `broadcast()` calls made so far (each of which invokes every
registered handler with the logged message). -/
structure StateMachine where
  currentMode : Mode
  lastEventTime : Nat
  modeTTL : Option Nat
  modeExpiresAt : Option Nat
  broadcasts : List StateMessage
  deriving DecidableEq

/-- The field initializers of the `StateMachine` class:
`currentMode = 'idle'`, `lastEventTime = Date.now()`,
`modeTTL = null`, `modeExpiresAt = null`. -/
def StateMachine.init (now : Nat) : StateMachine :=
  { currentMode := Mode.idle
    lastEventTime := now
    modeTTL := none
    modeExpiresAt := none
    broadcasts := [] }

/-- The `mode` getter. -/
def StateMachine.mode (s : StateMachine) : Mode :=
  s.currentMode

/-- `StateMachine.emit(mode, ttl?)`.  `ttl : Option Nat` models the
optional parameter; the source guard `if (ttl)` is JS truthiness, so
`ttl = some 0` takes the else branch exactly like `none`. -/
def StateMachine.emit (s : StateMachine) (mode : Mode) (ttl : Option Nat)
    (now : Nat) : StateMachine :=
  let s1 : StateMachine := { s with lastEventTime := now }
  let s2 : StateMachine :=
    if numTruthy ttl = true then
      { s1 with modeTTL := ttl, modeExpiresAt := some (now + ttl.getD 0) }
    else
      { s1 with modeTTL := none, modeExpiresAt := none }
  if mode ≠ s2.currentMode then
    { s2 with
        currentMode := mode
        broadcasts := s2.broadcasts ++ [{ type := "state", mode := mode, ts := now }] }
  else s2

/-- `StateMachine.tick()`.  First clears an expired TTL, then shields a
protected celebrate/error mode, then applies the silence-based decay
rules (25s to idle, 3s to thinking). -/
def StateMachine.tick (s : StateMachine) (now : Nat) : StateMachine :=
  let timeSinceLastEvent : Nat := now - s.lastEventTime
  let s1 : StateMachine :=
    if numTruthy s.modeExpiresAt = true ∧ s.modeExpiresAt.getD 0 ≤ now then
      { s with modeExpiresAt := none, modeTTL := none }
    else s
  if (s1.currentMode = Mode.celebrate ∨ s1.currentMode = Mode.error) ∧
      numTruthy s1.modeExpiresAt = true ∧ now < s1.modeExpiresAt.getD 0 then
    s1
  else if idleTimeout ≤ timeSinceLastEvent then
    if s1.currentMode ≠ Mode.idle then
      { s1 with
          currentMode := Mode.idle
          broadcasts := s1.broadcasts ++ [{ type := "state", mode := Mode.idle, ts := now }] }
    else s1
  else if thinkingTimeout ≤ timeSinceLastEvent then
    if s1.currentMode ≠ Mode.thinking ∧ s1.currentMode ≠ Mode.idle then
      { s1 with
          currentMode := Mode.thinking
          broadcasts := s1.broadcasts ++ [{ type := "state", mode := Mode.thinking, ts := now }] }
    else s1
  else s1

/-- A sequence of `tick()` calls at the given times, in order. -/
def StateMachine.tickMany (s : StateMachine) (ts : List Nat) : StateMachine :=
  ts.foldl StateMachine.tick s

/-- types.ts `HookEvent.type`: 'PreToolUse' | 'PostToolUse' | 'Stop' | 'Error'. -/
inductive HookType
  | PreToolUse
  | PostToolUse
  | Stop
  | Error
  deriving DecidableEq

/-- types.ts `HookEvent`: `{type, tool?, exitCode?}`. -/
structure HookEvent where
  type : HookType
  tool : Option String
  exitCode : Option Int
  deriving DecidableEq

/-- JS truthiness of the guard `event.exitCode && event.exitCode !== 0`:
for a number this holds exactly when it is present and non-zero. -/
def exitCodeTruthy : Option Int → Bool
  | none => false
  | some c => decide (c ≠ 0)

/-- server.ts `handleHookEvent`: classifies the event and calls
`stateMachine.emit` per the mapping table, or does nothing. -/
def handleHookEvent (event : HookEvent) (s : StateMachine) (now : Nat) :
    StateMachine :=
  if event.type = HookType.PreToolUse then
    let tool : String := event.tool.getD ""
    if ["Write", "Edit", "NotebookEdit"].contains tool then
      s.emit Mode.typing (some 5000) now
    else if tool = "Bash" then
      s.emit Mode.running (some 10000) now
    else if ["Read", "Grep", "Glob", "Task", "WebFetch", "WebSearch"].contains tool then
      s.emit Mode.thinking (some 3000) now
    else s
  else if event.type = HookType.Stop then
    s.emit Mode.celebrate (some 2000) now
  else if event.type = HookType.Error ∨ exitCodeTruthy event.exitCode = true then
    s.emit Mode.error (some 2000) now
  else s

/-- Outcome of the `POST /hook` route: HTTP status, response body, and
the state machine afterwards. -/
structure HookResponse where
  status : Nat
  body : String
  state : StateMachine
  deriving DecidableEq

/-- server.ts `POST /hook` handler: `parsed` is the result of
`JSON.parse` on the body (`none` = the parse threw). -/
def postHook (parsed : Option HookEvent) (s : StateMachine) (now : Nat) :
    HookResponse :=
  match parsed with
  | some event =>
      { status := 200
        body := "\x7b\"ok\":true\x7d"
        state := handleHookEvent event s now }
  | none =>
      { status := 400
        body := "\x7b\"error\":\"Invalid JSON\"\x7d"
        state := s }

/-- server.ts `GET /api/state` response: `{mode: stateMachine.mode, ts: Date.now()}`. -/
structure ApiStateResponse where
  mode : Mode
  ts : Nat
  deriving DecidableEq

/-- server.ts `GET /api/state` handler (no side effects on the machine). -/
def apiState (s : StateMachine) (now : Nat) : ApiStateResponse :=
  { mode := s.mode, ts := now }

/-- Outcome of the `wss.on('connection')` handler: the client set after
the handshake, the messages sent to the new socket, and the close code
it was closed with (if any). -/
structure ConnResult where
  clients : List Nat
  sent : List StateMessage
  closeCode : Option Nat
  deriving DecidableEq

/-- server.ts connection handler: compares the `token` query parameter
(`none` when absent) to the configured token with `!==`; a mismatch is
closed with 4001, a match is added to `clients` and sent one snapshot. -/
def handleConnection (clients : List Nat) (token : String)
    (urlToken : Option String) (ws : Nat) (sm : StateMachine) (now : Nat) :
    ConnResult :=
  if urlToken ≠ some token then
    { clients := clients, sent := [], closeCode := some 4001 }
  else
    { clients := clients ++ [ws]
      sent := [{ type := "state", mode := sm.mode, ts := now }]
      closeCode := none }

/-! ## General lemmas about emit and tick -/

/-- The decay phase of `tick` never touches `modeExpiresAt`; only the
initial expiry check does, clearing it exactly when it is truthy and
has passed. -/
theorem tick_modeExpiresAt (s : StateMachine) (now : Nat) :
    (s.tick now).modeExpiresAt =
      if numTruthy s.modeExpiresAt = true ∧ s.modeExpiresAt.getD 0 ≤ now then none
      else s.modeExpiresAt := by
  simp only [StateMachine.tick]
  split_ifs <;> rfl

/-- `tick` never changes `lastEventTime`. -/
theorem tick_lastEventTime (s : StateMachine) (now : Nat) :
    (s.tick now).lastEventTime = s.lastEventTime := by
  simp only [StateMachine.tick]
  split_ifs <;> rfl

/-- `emit` postconditions on the four state fields. -/
theorem emit_fields (s : StateMachine) (m : Mode) (ttl : Option Nat) (now : Nat) :
    (s.emit m ttl now).currentMode = m ∧
    (s.emit m ttl now).lastEventTime = now ∧
    (s.emit m ttl now).modeTTL = (if numTruthy ttl = true then ttl else none) ∧
    (s.emit m ttl now).modeExpiresAt =
      (if numTruthy ttl = true then some (now + ttl.getD 0) else none) := by
  simp only [StateMachine.emit]
  by_cases hm : m = s.currentMode <;> by_cases ht : numTruthy ttl = true <;>
    simp_all

/-! ## C1 -/

/-- C1 counterexample: the claim says `emit(mode, 0)` sets the protection
expiry to call-time + 0, but `if (ttl)` treats `0` as falsy, so the code
clears the expiry to null instead: `emit('typing', 0)` at time 5 leaves
`modeExpiresAt = none`, not `some 5`. -/
theorem c1_zero_ttl_clears_protection :
    ((StateMachine.init 0).emit Mode.typing (some 0) 5).modeExpiresAt = none ∧
    ¬ ((StateMachine.init 0).emit Mode.typing (some 0) 5).modeExpiresAt = some 5 := by
  decide

/-- C1 (amended): once `emit(mode, protectionMs)` returns, `currentMode`
equals the emitted mode, `lastEventTime` equals the call time, and the
protection expiry equals call-time + protectionMs when protectionMs was
given and non-zero, and is cleared to null when protectionMs was omitted
or zero. -/
theorem c1_emit_postcondition (s : StateMachine) (m : Mode) (ttl : Option Nat)
    (now : Nat) :
    (s.emit m ttl now).currentMode = m ∧
    (s.emit m ttl now).lastEventTime = now ∧
    (∀ p : Nat, ttl = some p → p ≠ 0 →
        (s.emit m ttl now).modeExpiresAt = some (now + p)) ∧
    (ttl = none ∨ ttl = some 0 → (s.emit m ttl now).modeExpiresAt = none) := by
  obtain ⟨h1, h2, h3, h4⟩ := emit_fields s m ttl now
  refine ⟨h1, h2, ?_, ?_⟩
  · intro p hp hp0
    subst hp
    rw [h4]
    simp [numTruthy, hp0]
  · intro hcases
    rw [h4]
    rcases hcases with h | h <;> subst h <;> simp [numTruthy]

/-- Closed instance of `c1_emit_postcondition` with its inner hypotheses
discharged at a concrete input. -/
theorem c1_emit_postcondition_witness :
    ((StateMachine.init 0).emit Mode.typing (some 5000) 7).modeExpiresAt = some 5007 :=
  (c1_emit_postcondition (StateMachine.init 0) Mode.typing (some 5000) 7).2.2.1
    5000 rfl (by decide)

/-! ## C2 -/

/-- C2: the hook classifier reproduces the mapping table exactly:
PreToolUse with Write/Edit/NotebookEdit emits (typing, 5000); PreToolUse
with Bash emits (running, 10000); PreToolUse with
Read/Grep/Glob/Task/WebFetch/WebSearch emits (thinking, 3000); Stop
emits (celebrate, 2000); a PreToolUse event with any other tool and a
PostToolUse event with zero or absent exitCode make no call into the
StateMachine at all. -/
theorem c2_classifier_table (e : HookEvent) (s : StateMachine) (now : Nat) :
    (e.type = HookType.PreToolUse → e.tool.getD "" ∈ ["Write", "Edit", "NotebookEdit"] →
        handleHookEvent e s now = s.emit Mode.typing (some 5000) now) ∧
    (e.type = HookType.PreToolUse → e.tool.getD "" = "Bash" →
        handleHookEvent e s now = s.emit Mode.running (some 10000) now) ∧
    (e.type = HookType.PreToolUse →
        e.tool.getD "" ∈ ["Read", "Grep", "Glob", "Task", "WebFetch", "WebSearch"] →
        handleHookEvent e s now = s.emit Mode.thinking (some 3000) now) ∧
    (e.type = HookType.Stop →
        handleHookEvent e s now = s.emit Mode.celebrate (some 2000) now) ∧
    (e.type = HookType.PreToolUse →
        e.tool.getD "" ∉ ["Write", "Edit", "NotebookEdit", "Bash", "Read", "Grep",
          "Glob", "Task", "WebFetch", "WebSearch"] →
        handleHookEvent e s now = s) ∧
    (e.type = HookType.PostToolUse → exitCodeTruthy e.exitCode = false →
        handleHookEvent e s now = s) := by
  refine ⟨?_, ?_, ?_, ?_, ?_, ?_⟩
  · intro h1 h2
    simp only [List.mem_cons, List.not_mem_nil, or_false] at h2
    rcases h2 with h2 | h2 | h2 <;> simp [handleHookEvent, h1, h2]
  · intro h1 h2
    simp [handleHookEvent, h1, h2]
  · intro h1 h2
    simp only [List.mem_cons, List.not_mem_nil, or_false] at h2
    rcases h2 with h2 | h2 | h2 | h2 | h2 | h2 <;> simp [handleHookEvent, h1, h2]
  · intro h1
    cases e
    cases h1
    simp [handleHookEvent]
  · intro h1 h2
    simp only [List.mem_cons, List.not_mem_nil, or_false, not_or] at h2
    obtain ⟨n1, n2, n3, n4, n5, n6, n7, n8, n9, n10⟩ := h2
    simp [handleHookEvent, h1, n1, n2, n3, n4, n5, n6, n7, n8, n9, n10]
  · intro h1 h2
    simp [handleHookEvent, h1, h2]

/-- Closed instance of `c2_classifier_table` with its inner hypotheses
discharged at a concrete input. -/
theorem c2_classifier_table_witness :
    handleHookEvent { type := HookType.PreToolUse, tool := some "Bash", exitCode := none }
      (StateMachine.init 0) 9 =
      (StateMachine.init 0).emit Mode.running (some 10000) 9 :=
  (c2_classifier_table
      { type := HookType.PreToolUse, tool := some "Bash", exitCode := none }
      (StateMachine.init 0) 9).2.1 rfl rfl

/-! ## C7 -/

/-- C7 counterexample: the claim says a PreToolUse event with an unmapped
tool and non-zero exitCode triggers `emit('error', 2000)`, but in
`handleHookEvent` the exitCode check sits on an `else if` behind the
PreToolUse branch, so such an event is ignored entirely: the state is
returned unchanged and the mode does not become error. -/
theorem c7_pretooluse_nonzero_exit_ignored :
    handleHookEvent { type := HookType.PreToolUse, tool := some "Foo", exitCode := some 1 }
        (StateMachine.init 0) 5 = StateMachine.init 0 ∧
    ¬ (handleHookEvent { type := HookType.PreToolUse, tool := some "Foo", exitCode := some 1 }
        (StateMachine.init 0) 5).currentMode = Mode.error := by
  decide

/-- C7 (amended): `emit('error', 2000)` is called for every event of type
Error, and for an event with present non-zero exitCode only when its type
is neither PreToolUse nor Stop (e.g. PostToolUse); a PreToolUse event with
an unmapped tool is ignored even when its exitCode is non-zero. -/
theorem c7_error_classification (e : HookEvent) (s : StateMachine) (now : Nat) :
    (e.type = HookType.Error →
        handleHookEvent e s now = s.emit Mode.error (some 2000) now) ∧
    (e.type = HookType.PostToolUse → exitCodeTruthy e.exitCode = true →
        handleHookEvent e s now = s.emit Mode.error (some 2000) now) ∧
    (e.type = HookType.PreToolUse →
        e.tool.getD "" ∉ ["Write", "Edit", "NotebookEdit", "Bash", "Read", "Grep",
          "Glob", "Task", "WebFetch", "WebSearch"] →
        handleHookEvent e s now = s) := by
  refine ⟨?_, ?_, ?_⟩
  · intro h1
    simp [handleHookEvent, h1]
  · intro h1 h2
    simp [handleHookEvent, h1, h2]
  · intro h1 h2
    simp only [List.mem_cons, List.not_mem_nil, or_false, not_or] at h2
    obtain ⟨n1, n2, n3, n4, n5, n6, n7, n8, n9, n10⟩ := h2
    simp [handleHookEvent, h1, n1, n2, n3, n4, n5, n6, n7, n8, n9, n10]

/-- Closed instance of `c7_error_classification` with its inner hypotheses
discharged at a concrete input. -/
theorem c7_error_classification_witness :
    handleHookEvent { type := HookType.PostToolUse, tool := none, exitCode := some 2 }
      (StateMachine.init 0) 4 =
      (StateMachine.init 0).emit Mode.error (some 2000) 4 :=
  (c7_error_classification
      { type := HookType.PostToolUse, tool := none, exitCode := some 2 }
      (StateMachine.init 0) 4).2.1 rfl (by decide)

/-! ## C8 -/

/-- C8: on a new WebSocket connection, a token exactly equal to the
configured token gets the socket added to the client set and sent exactly
one StateMessage snapshot carrying the current mode; any other token
(including an absent one) gets close code 4001, no set membership, and
zero messages. -/
theorem c8_ws_handshake (clients : List Nat) (token : String)
    (urlToken : Option String) (ws : Nat) (sm : StateMachine) (now : Nat) :
    (urlToken = some token →
        handleConnection clients token urlToken ws sm now =
          { clients := clients ++ [ws]
            sent := [{ type := "state", mode := sm.mode, ts := now }]
            closeCode := none }) ∧
    (urlToken ≠ some token →
        handleConnection clients token urlToken ws sm now =
          { clients := clients, sent := [], closeCode := some 4001 }) := by
  constructor <;> intro h <;> simp [handleConnection, h]

/-- Closed instance of `c8_ws_handshake` with its hypotheses discharged
at concrete inputs. -/
theorem c8_ws_handshake_witness :
    handleConnection [1] "secret" (some "secret") 2 (StateMachine.init 0) 6 =
      { clients := [1, 2]
        sent := [{ type := "state", mode := Mode.idle, ts := 6 }]
        closeCode := none } ∧
    handleConnection [1] "secret" (some "wrong") 2 (StateMachine.init 0) 6 =
      { clients := [1], sent := [], closeCode := some 4001 } :=
  ⟨(c8_ws_handshake [1] "secret" (some "secret") 2 (StateMachine.init 0) 6).1 rfl,
   (c8_ws_handshake [1] "secret" (some "wrong") 2 (StateMachine.init 0) 6).2 (by decide)⟩

/-! ## C9 -/

/-- C9: a POST /hook body that fails to parse yields HTTP 400 with body
`{"error": "Invalid JSON"}` and an unchanged StateMachine; a body that
parses yields HTTP 200 with body `{"ok": true}`; and when the parsed
event is ignored by the classifier (unmapped PreToolUse tool, or
PostToolUse with zero/absent exitCode) the state is also unchanged. -/
theorem c9_post_hook (e : HookEvent) (s : StateMachine) (now : Nat) :
    postHook none s now =
      { status := 400, body := "\x7b\"error\":\"Invalid JSON\"\x7d", state := s } ∧
    (postHook (some e) s now).status = 200 ∧
    (postHook (some e) s now).body = "\x7b\"ok\":true\x7d" ∧
    ((e.type = HookType.PreToolUse ∧
        e.tool.getD "" ∉ ["Write", "Edit", "NotebookEdit", "Bash", "Read", "Grep",
          "Glob", "Task", "WebFetch", "WebSearch"]) ∨
      (e.type = HookType.PostToolUse ∧ exitCodeTruthy e.exitCode = false) →
        (postHook (some e) s now).state = s) := by
  refine ⟨rfl, rfl, rfl, ?_⟩
  intro h
  rcases h with ⟨h1, h2⟩ | ⟨h1, h2⟩
  · exact (c7_error_classification e s now).2.2 h1 h2
  · exact (c2_classifier_table e s now).2.2.2.2.2 h1 h2

/-- Closed instance of `c9_post_hook` with its inner hypothesis discharged
at a concrete input. -/
theorem c9_post_hook_witness :
    (postHook (some { type := HookType.PostToolUse, tool := none, exitCode := some 0 })
      (StateMachine.init 3) 8).state = StateMachine.init 3 :=
  (c9_post_hook { type := HookType.PostToolUse, tool := none, exitCode := some 0 }
      (StateMachine.init 3) 8).2.2.2 (Or.inr ⟨rfl, by decide⟩)

/-! ## C10 -/

/-- C10: a freshly constructed StateMachine has mode idle and no
protection window, GET /api/state then reports mode idle, and a newly
authenticated connection receives an idle snapshot. -/
theorem c10_initial_state (t0 now : Nat) (clients : List Nat) (token : String)
    (ws : Nat) :
    (StateMachine.init t0).currentMode = Mode.idle ∧
    (StateMachine.init t0).modeExpiresAt = none ∧
    (apiState (StateMachine.init t0) now).mode = Mode.idle ∧
    (handleConnection clients token (some token) ws (StateMachine.init t0) now).sent =
      [{ type := "state", mode := Mode.idle, ts := now }] := by
  refine ⟨rfl, rfl, rfl, ?_⟩
  simp [handleConnection, StateMachine.mode, StateMachine.init]

/-! ## C4 -/

/-- C4 counterexample: the claim says every mode is shielded from decay
while the protection window is active, but only celebrate/error are:
after `emit('typing', 5000)` at time 0, a tick at 4000 — strictly inside
the window (`modeExpiresAt = 5000`) — changes the mode to thinking. -/
theorem c4_typing_decays_inside_window :
    ((StateMachine.init 0).emit Mode.typing (some 5000) 0).modeExpiresAt = some 5000 ∧
    ((StateMachine.init 0).emit Mode.typing (some 5000) 0).currentMode = Mode.typing ∧
    (((StateMachine.init 0).emit Mode.typing (some 5000) 0).tick 4000).currentMode =
      Mode.thinking := by
  decide

/-- C4 (amended): only while `currentMode` is celebrate or error does an
active protection window (current time strictly before the set, non-zero
expiry) suppress the silence-based decay: in that case `tick` leaves the
state — in particular `currentMode` — entirely unchanged. -/
theorem c4_protection_shields_celebrate_error (s : StateMachine) (now e : Nat)
    (hm : s.currentMode = Mode.celebrate ∨ s.currentMode = Mode.error)
    (he : s.modeExpiresAt = some e) (he0 : e ≠ 0) (hlt : now < e) :
    s.tick now = s := by
  have hclear : ¬ (numTruthy s.modeExpiresAt = true ∧ s.modeExpiresAt.getD 0 ≤ now) := by
    rw [he]
    simp [numTruthy, he0]
    omega
  have hshield : (s.currentMode = Mode.celebrate ∨ s.currentMode = Mode.error) ∧
      numTruthy s.modeExpiresAt = true ∧ now < s.modeExpiresAt.getD 0 := by
    rw [he]
    exact ⟨hm, by simp [numTruthy, he0], by simpa using hlt⟩
  simp only [StateMachine.tick]
  rw [if_neg hclear, if_pos hshield]

/-- Closed instance of `c4_protection_shields_celebrate_error` with its
hypotheses discharged at a concrete input. -/
theorem c4_protection_shields_witness :
    ((StateMachine.init 0).emit Mode.celebrate (some 2000) 0).tick 1000 =
      (StateMachine.init 0).emit Mode.celebrate (some 2000) 0 :=
  c4_protection_shields_celebrate_error
    ((StateMachine.init 0).emit Mode.celebrate (some 2000) 0) 1000 2000
    (by decide) (by decide) (by decide) (by decide)

/-! ## C5 -/

/-- C5 counterexample: the claim says `tick` never clears the protection
expiry, but the first step of `tick` clears an expired window: after
`emit('celebrate', 2000)` at time 0 the expiry is `some 2000`, and a tick
at 2000 resets it to `none`. -/
theorem c5_tick_clears_expired_window :
    ((StateMachine.init 0).emit Mode.celebrate (some 2000) 0).modeExpiresAt = some 2000 ∧
    (((StateMachine.init 0).emit Mode.celebrate (some 2000) 0).tick 2000).modeExpiresAt =
      none := by
  decide

/-- C5 (amended): `tick` never sets or extends the protection expiry: it
leaves `modeExpiresAt` unchanged whenever the window is absent or still
in the future, and clears it (to null, never to any other value) once
the set, non-zero expiry time has been reached. -/
theorem c5_tick_window_evolution (s : StateMachine) (now : Nat) :
    ((s.tick now).modeExpiresAt = s.modeExpiresAt ∨ (s.tick now).modeExpiresAt = none) ∧
    (s.modeExpiresAt = none → (s.tick now).modeExpiresAt = none) ∧
    (∀ e : Nat, s.modeExpiresAt = some e → e ≠ 0 → now < e →
        (s.tick now).modeExpiresAt = some e) ∧
    (∀ e : Nat, s.modeExpiresAt = some e → e ≠ 0 → e ≤ now →
        (s.tick now).modeExpiresAt = none) := by
  rw [tick_modeExpiresAt] at *
  refine ⟨?_, ?_, ?_, ?_⟩
  · split_ifs <;> simp
  · intro h
    simp [h, numTruthy]
  · intro e he he0 hlt
    rw [he]
    rw [if_neg]
    simp [numTruthy, he0]
    omega
  · intro e he he0 hle
    rw [he]
    rw [if_pos]
    exact ⟨by simp [numTruthy, he0], by simpa using hle⟩

/-- Closed instance of `c5_tick_window_evolution` with its inner
hypotheses discharged at a concrete input. -/
theorem c5_tick_window_evolution_witness :
    (((StateMachine.init 0).emit Mode.celebrate (some 2000) 0).tick 1500).modeExpiresAt =
      some 2000 :=
  (c5_tick_window_evolution ((StateMachine.init 0).emit Mode.celebrate (some 2000) 0)
      1500).2.2.1 2000 (by decide) (by decide) (by decide)

/-! ## C6 -/

/-- `emit` appends one broadcast exactly when the emitted mode differs
from the current one. -/
theorem emit_broadcasts (s : StateMachine) (m : Mode) (ttl : Option Nat)
    (now : Nat) :
    (s.emit m ttl now).broadcasts =
      if m = s.currentMode then s.broadcasts
      else s.broadcasts ++ [{ type := "state", mode := m, ts := now }] := by
  by_cases hm : m = s.currentMode <;> by_cases ht : numTruthy ttl = true <;>
    simp_all [StateMachine.emit]

/-- A `tick` that leaves `currentMode` unchanged appends no broadcast. -/
theorem tick_no_change_no_broadcast (s : StateMachine) (now : Nat)
    (h : (s.tick now).currentMode = s.currentMode) :
    (s.tick now).broadcasts = s.broadcasts := by
  revert h
  simp only [StateMachine.tick]
  split_ifs <;> simp_all
  all_goals (intro hh; simp_all)

/-- C6: broadcast handlers run exactly on mode change: an `emit` of the
mode already current appends no broadcast while still setting
`lastEventTime` and the protection window; two consecutive emits of the
same (previously different) mode append exactly one broadcast total; and
a `tick` that leaves `currentMode` unchanged appends no broadcast. -/
theorem c6_broadcast_only_on_change (s : StateMachine) (m : Mode)
    (ttl ttl2 : Option Nat) (t1 t2 now : Nat) :
    (s.currentMode = m →
        (s.emit m ttl t1).broadcasts = s.broadcasts ∧
        (s.emit m ttl t1).lastEventTime = t1 ∧
        (s.emit m ttl t1).modeExpiresAt =
          (if numTruthy ttl = true then some (t1 + ttl.getD 0) else none)) ∧
    (s.currentMode ≠ m →
        ((s.emit m ttl t1).emit m ttl2 t2).broadcasts =
          s.broadcasts ++ [{ type := "state", mode := m, ts := t1 }]) ∧
    ((s.tick now).currentMode = s.currentMode →
        (s.tick now).broadcasts = s.broadcasts) := by
  refine ⟨?_, ?_, tick_no_change_no_broadcast s now⟩
  · intro hc
    obtain ⟨h1, h2, h3, h4⟩ := emit_fields s m ttl t1
    refine ⟨?_, h2, h4⟩
    rw [emit_broadcasts, if_pos hc.symm]
  · intro hc
    rw [emit_broadcasts, (emit_fields s m ttl t1).1, if_pos rfl,
      emit_broadcasts, if_neg (fun h => hc h.symm)]

/-- Closed instance of `c6_broadcast_only_on_change` with its hypotheses
discharged at a concrete input: two consecutive `emit('typing', 5000)`
calls from idle broadcast exactly once. -/
theorem c6_broadcast_only_on_change_witness :
    (((StateMachine.init 0).emit Mode.typing (some 5000) 3).emit Mode.typing
        (some 5000) 9).broadcasts =
      (StateMachine.init 0).broadcasts ++ [{ type := "state", mode := Mode.typing, ts := 3 }] :=
  (c6_broadcast_only_on_change (StateMachine.init 0) Mode.typing (some 5000)
      (some 5000) 3 9 0).2.1 (by decide)

/-! ## C3 -/

/-- `tick` never changes `modeTTL` except by the initial expiry clear. -/
theorem tick_modeTTL (s : StateMachine) (now : Nat) :
    (s.tick now).modeTTL =
      if numTruthy s.modeExpiresAt = true ∧ s.modeExpiresAt.getD 0 ≤ now then none
      else s.modeTTL := by
  simp only [StateMachine.tick]
  split_ifs <;> rfl

/-- Full characterization of the mode after one `tick`: a protected
celebrate/error mode is kept; otherwise 25s of silence forces idle, 3s
of silence forces thinking (except from idle), and anything else keeps
the mode. -/
theorem tick_currentMode (s : StateMachine) (now : Nat) :
    (s.tick now).currentMode =
      if (s.currentMode = Mode.celebrate ∨ s.currentMode = Mode.error) ∧
          numTruthy s.modeExpiresAt = true ∧ now < s.modeExpiresAt.getD 0 then
        s.currentMode
      else if idleTimeout ≤ now - s.lastEventTime then Mode.idle
      else if thinkingTimeout ≤ now - s.lastEventTime then
        (if s.currentMode = Mode.idle then Mode.idle else Mode.thinking)
      else s.currentMode := by
  simp only [StateMachine.tick]
  by_cases hcl : numTruthy s.modeExpiresAt = true ∧ s.modeExpiresAt.getD 0 ≤ now
  · rw [if_pos hcl]
    have hsh2 : ¬ ((s.currentMode = Mode.celebrate ∨ s.currentMode = Mode.error) ∧
        numTruthy s.modeExpiresAt = true ∧ now < s.modeExpiresAt.getD 0) := by
      rintro ⟨-, -, hlt⟩
      omega
    rw [if_neg hsh2]
    split_ifs <;> simp_all [numTruthy]
  · rw [if_neg hcl]
    split_ifs <;> simp_all

/-- Abstract shape of the machine after `emit('celebrate', 2000)` at `t0`
followed by ticks: `a` records whether some tick reached the idle
threshold, `b` the thinking threshold, `c` the protection expiry. -/
def IsCelebSt (t0 : Nat) (a b c : Bool) (s : StateMachine) : Prop :=
  s.currentMode = (if a then Mode.idle else if b then Mode.thinking else Mode.celebrate) ∧
  s.lastEventTime = t0 ∧
  s.modeTTL = (if c then none else some 2000) ∧
  s.modeExpiresAt = (if c then none else some (t0 + 2000))

/-- One `tick` preserves the celebrate-scenario shape, bumping each flag
exactly when its threshold is reached. -/
theorem isCelebSt_tick (t0 : Nat) (a b c : Bool) (s : StateMachine) (t : Nat)
    (h : IsCelebSt t0 a b c s) :
    IsCelebSt t0 (a || decide (t0 + 25000 ≤ t)) (b || decide (t0 + 3000 ≤ t))
      (c || decide (t0 + 2000 ≤ t)) (s.tick t) := by
  obtain ⟨hm, hl, ht, he⟩ := h
  have e25 : (25000 ≤ t - t0) ↔ (t0 + 25000 ≤ t) := by omega
  have e3 : (3000 ≤ t - t0) ↔ (t0 + 3000 ≤ t) := by omega
  have hnz : ¬ (t0 + 2000 = 0) := by omega
  refine ⟨?_, ?_, ?_, ?_⟩
  · rw [tick_currentMode, hm, hl, he]
    cases a <;> cases b <;> cases c <;>
      simp [numTruthy, thinkingTimeout, idleTimeout, e25, e3, hnz] <;>
      split_ifs <;> simp_all <;> omega
  · rw [tick_lastEventTime, hl]
  · rw [tick_modeTTL, he, ht]
    cases c <;> simp [numTruthy, hnz]
  · rw [tick_modeExpiresAt, he]
    cases c <;> simp [numTruthy, hnz]

/-- Any sequence of ticks preserves the celebrate-scenario shape, with
each flag raised exactly when some tick reaches its threshold. -/
theorem isCelebSt_tickMany (t0 : Nat) (ts : List Nat) :
    ∀ (a b c : Bool) (s : StateMachine), IsCelebSt t0 a b c s →
      IsCelebSt t0 (a || ts.any (fun t => decide (t0 + 25000 ≤ t)))
        (b || ts.any (fun t => decide (t0 + 3000 ≤ t)))
        (c || ts.any (fun t => decide (t0 + 2000 ≤ t)))
        (s.tickMany ts) := by
  induction ts with
  | nil =>
      intro a b c s h
      simpa [StateMachine.tickMany] using h
  | cons t rest ih =>
      intro a b c s h
      have h2 := ih _ _ _ _ (isCelebSt_tick t0 a b c s t h)
      simpa [StateMachine.tickMany, Bool.or_assoc] using h2

/-- Abstract shape of the machine after `emit('thinking', 3000)` at `t0`
followed by ticks: `a` records whether some tick reached the idle
threshold, `b` the thinking threshold / protection expiry. -/
def IsThinkSt (t0 : Nat) (a b : Bool) (s : StateMachine) : Prop :=
  s.currentMode = (if a then Mode.idle else Mode.thinking) ∧
  s.lastEventTime = t0 ∧
  s.modeTTL = (if b then none else some 3000) ∧
  s.modeExpiresAt = (if b then none else some (t0 + 3000))

/-- One `tick` preserves the thinking-scenario shape. -/
theorem isThinkSt_tick (t0 : Nat) (a b : Bool) (s : StateMachine) (t : Nat)
    (h : IsThinkSt t0 a b s) :
    IsThinkSt t0 (a || decide (t0 + 25000 ≤ t)) (b || decide (t0 + 3000 ≤ t))
      (s.tick t) := by
  obtain ⟨hm, hl, ht, he⟩ := h
  have e25 : (25000 ≤ t - t0) ↔ (t0 + 25000 ≤ t) := by omega
  have e3 : (3000 ≤ t - t0) ↔ (t0 + 3000 ≤ t) := by omega
  have hnz : ¬ (t0 + 3000 = 0) := by omega
  refine ⟨?_, ?_, ?_, ?_⟩
  · rw [tick_currentMode, hm, hl, he]
    cases a <;> cases b <;>
      simp [numTruthy, thinkingTimeout, idleTimeout, e25, e3, hnz]
  · rw [tick_lastEventTime, hl]
  · rw [tick_modeTTL, he, ht]
    cases b <;> simp [numTruthy, hnz]
  · rw [tick_modeExpiresAt, he]
    cases b <;> simp [numTruthy, hnz]

/-- Any sequence of ticks preserves the thinking-scenario shape. -/
theorem isThinkSt_tickMany (t0 : Nat) (ts : List Nat) :
    ∀ (a b : Bool) (s : StateMachine), IsThinkSt t0 a b s →
      IsThinkSt t0 (a || ts.any (fun t => decide (t0 + 25000 ≤ t)))
        (b || ts.any (fun t => decide (t0 + 3000 ≤ t)))
        (s.tickMany ts) := by
  induction ts with
  | nil =>
      intro a b s h
      simpa [StateMachine.tickMany] using h
  | cons t rest ih =>
      intro a b s h
      have h2 := ih _ _ _ (isThinkSt_tick t0 a b s t h)
      simpa [StateMachine.tickMany, Bool.or_assoc] using h2

/-- C3: with no further emits after `emit('celebrate', 2000)` at `t0`, the
mode after any sequence of ticks is celebrate while no tick has reached
`t0 + 3000` (in particular it is unchanged by ticks at the `t0 + 2000`
window expiry), thinking once some tick is at or past `t0 + 3000` of
silence, and idle once some tick is at or past `t0 + 25000`; and after
`emit('thinking', 3000)` at `t0` the mode stays thinking until the first
tick at or past `t0 + 25000`, which yields idle. -/
theorem c3_silence_decay (s : StateMachine) (t0 : Nat) (ts : List Nat) :
    ((s.emit Mode.celebrate (some 2000) t0).tickMany ts).currentMode =
      (if ts.any (fun t => decide (t0 + 25000 ≤ t)) = true then Mode.idle
       else if ts.any (fun t => decide (t0 + 3000 ≤ t)) = true then Mode.thinking
       else Mode.celebrate) ∧
    ((s.emit Mode.thinking (some 3000) t0).tickMany ts).currentMode =
      (if ts.any (fun t => decide (t0 + 25000 ≤ t)) = true then Mode.idle
       else Mode.thinking) := by
  constructor
  · have h0 : IsCelebSt t0 false false false (s.emit Mode.celebrate (some 2000) t0) := by
      obtain ⟨h1, h2, h3, h4⟩ := emit_fields s Mode.celebrate (some 2000) t0
      exact ⟨by simp_all [numTruthy], h2, by simp_all [numTruthy], by simp_all [numTruthy]⟩
    obtain ⟨hm, -, -, -⟩ := isCelebSt_tickMany t0 ts false false false _ h0
    rw [hm]
    simp only [Bool.false_or]
  · have h0 : IsThinkSt t0 false false (s.emit Mode.thinking (some 3000) t0) := by
      obtain ⟨h1, h2, h3, h4⟩ := emit_fields s Mode.thinking (some 3000) t0
      exact ⟨by simp_all [numTruthy], h2, by simp_all [numTruthy], by simp_all [numTruthy]⟩
    obtain ⟨hm, -, -, -⟩ := isThinkSt_tickMany t0 ts false false _ h0
    rw [hm]
    simp only [Bool.false_or]
